import Mathlib

/-!
Verification of the tid-bacnet-logic primitive-value codec layer.

The development embeds, as Lean functions, the three typed-value codecs of
`src/types/boolean/boolean.type.ts` (`BACnetBoolean`, `BACnetStatusFlags`,
`BACnetObjectId`) together with the pieces of the surrounding library they
call.  Helpers that live outside the provided sources (the `Utils.Typer`
bit helpers, the `IOs.Reader`/`IOs.Writer` byte-cursor layer, and the
Complex-ACK PDU decoder, whose only provided file is its test) are modelled
from the specification and are marked as such in their doc comments.

Booleans, flags and object identifiers are plain Lean values; a byte buffer
is a `List Nat` of byte values with an explicit cursor position; a writer is
modelled by the list of write operations it receives; fallible reads return
`Option`; fallible validation returns `Except String`.
-/

namespace TidBacnet

/-! ### Enumerations (`src/enums`, modelled from the spec) -/

namespace Enums

/-- Modelled from the spec: `Enums.TagType.application` — the application
tag class, encoded as class bit 0 (§4.2, glossary). -/
def TagType.application : Nat := 0

/-- Modelled from the spec: `Enums.TagType.context` — the context tag
class, encoded as class bit 1 (§4.2, glossary). -/
def TagType.context : Nat := 1

/-- Modelled from the spec: `Enums.PropertyType.boolean` — the BACnet
application tag number for the boolean type. -/
def PropertyType.boolean : Nat := 1

/-- Modelled from the spec: `Enums.PropertyType.bitString` — the BACnet
application tag number for the bit-string type. -/
def PropertyType.bitString : Nat := 8

/-- Modelled from the spec: `Enums.PropertyType.objectIdentifier` — the
BACnet application tag number for the object-identifier type. -/
def PropertyType.objectIdentifier : Nat := 12

end Enums

/-! ### Bit helpers (`Utils.Typer`, modelled from the spec) -/

namespace Typer

/-- Modelled from the spec: `Utils.Typer.getBit(value, pos)` — get a single
bit, least-significant-bit indexed (§9 bit-helper contract). -/
def getBit (value pos : Nat) : Nat :=
  (value >>> pos) % 2

/-- Modelled from the spec: `Utils.Typer.setBit(value, pos, flag)` — set or
clear a single bit of a 32-bit word, least-significant-bit indexed (§9). -/
def setBit (value pos : Nat) (flag : Bool) : Nat :=
  if flag then value ||| (1 <<< pos)
  else value &&& ((2 ^ 32 - 1) ^^^ (1 <<< pos))

/-- Modelled from the spec: `Utils.Typer.getBitRange(word, startBit,
widthBits) -> unsigned`, least-significant-bit indexed (§9). -/
def getBitRange (word start width : Nat) : Nat :=
  (word >>> start) % 2 ^ width

/-- Modelled from the spec: `Utils.Typer.setBitRange(word, startBit,
widthBits, value)` — replace bits `[start, start+width)` of `word` by the
low `width` bits of `value` (§9 bit-range contract). -/
def setBitRange (word start width value : Nat) : Nat :=
  word - getBitRange word start width * 2 ^ start + value % 2 ^ width * 2 ^ start

end Typer

/-! ### Byte-cursor reader (`IOs.Reader`, modelled from the spec §4.1/§4.2) -/

/-- A byte buffer with an advancing cursor position (§4.1).  Bytes are
`Nat` values below 256. -/
structure ReaderState where
  buffer : List Nat
  pos : Nat
deriving DecidableEq, Repr

/-- Modelled from the spec: `reader.readUInt8` — read one byte and advance;
out-of-range reads fail (§4.1). -/
def readUInt8 (s : ReaderState) : Option (Nat × ReaderState) :=
  match s.buffer.get? s.pos with
  | some b => some (b, ⟨s.buffer, s.pos + 1⟩)
  | none => none

/-- Modelled from the spec: `reader.readUInt16BE` — read a 2-byte
big-endian unsigned integer (§4.1). -/
def readUInt16BE (s : ReaderState) : Option (Nat × ReaderState) :=
  match readUInt8 s with
  | none => none
  | some (b0, s1) =>
    match readUInt8 s1 with
    | none => none
    | some (b1, s2) => some (b0 * 256 + b1, s2)

/-- Modelled from the spec: `reader.readUInt32BE` — read a 4-byte
big-endian unsigned integer (§4.1). -/
def readUInt32BE (s : ReaderState) : Option (Nat × ReaderState) :=
  match readUInt16BE s with
  | none => none
  | some (h, s1) =>
    match readUInt16BE s1 with
    | none => none
    | some (l, s2) => some (h * 65536 + l, s2)

/-- The decoded tag header (`Interfaces.Tag`): tag number, tag class
(0 = application, 1 = context) and the length/value subfield.  The source
accesses the third field as `tag.value`; the spec calls it `length`. -/
structure Tag where
  num : Nat
  type : Nat
  value : Nat
deriving DecidableEq, Repr

/-- Modelled from the spec: `reader.readTag` — tag-header decode (§4.2):
one header byte `[num:4][class:1][lvt:3]`; nibble 15 escapes to an extra
number byte; lvt 5 escapes to an extra length byte, whose sentinel values
254/255 select a further 2- or 4-byte big-endian length. -/
def readTag (s : ReaderState) : Option (Tag × ReaderState) :=
  match readUInt8 s with
  | none => none
  | some (b, s1) =>
    let numCand := b >>> 4
    let cls := (b >>> 3) % 2
    let lvtCand := b % 8
    match (if numCand = 15 then readUInt8 s1 else some (numCand, s1)) with
    | none => none
    | some (num, s2) =>
      if lvtCand = 5 then
        match readUInt8 s2 with
        | none => none
        | some (e, s3) =>
          if e = 254 then
            match readUInt16BE s3 with
            | none => none
            | some (len, s4) => some (⟨num, cls, len⟩, s4)
          else if e = 255 then
            match readUInt32BE s3 with
            | none => none
            | some (len, s4) => some (⟨num, cls, len⟩, s4)
          else
            some (⟨num, cls, e⟩, s3)
      else
        some (⟨num, cls, lvtCand⟩, s2)

/-! ### Writer (`IOs.Writer`) — modelled by the list of write operations -/

/-- One operation issued to the `IOs.Writer`: a tag header
(`writer.writeTag(num, cls, lvt)`), a single byte (`writer.writeUInt8`), or
a 4-byte big-endian word (`writer.writeUInt32BE`). -/
inductive WriteOp where
  | tag (num cls lvt : Nat)
  | uint8 (b : Nat)
  | uint32be (v : Nat)
deriving DecidableEq, Repr

/-! ### Heap model for reference semantics of compound payloads

`getValue` of the compound types returns `_.cloneDeep(this.data)`.  To state
the defensive-copy contract we model the JavaScript heap explicitly: objects
live at addresses, `cloneDeep` allocates a fresh address holding the same
field values, and mutation updates one address. -/

/-- A heap of objects of type `α`: a store indexed by address and the next
free address.  Valid instances hold addresses below `next`. -/
structure Heap (α : Type) where
  store : Nat → α
  next : Nat

/-- Allocate a fresh object on the heap, returning its address. -/
def Heap.alloc {α : Type} (h : Heap α) (v : α) : Nat × Heap α :=
  (h.next, ⟨fun a => if a = h.next then v else h.store a, h.next + 1⟩)

/-- Mutate the object stored at `addr` by `f`, leaving other addresses
untouched. -/
def Heap.writeField {α : Type} (h : Heap α) (addr : Nat) (f : α → α) : Heap α :=
  ⟨fun a => if a = addr then f (h.store a) else h.store a, h.next⟩

/-- Lodash `_.cloneDeep` on a flat compound payload: allocate a fresh object with
the same field values and return a reference to it. -/
def Heap.cloneDeep {α : Type} (h : Heap α) (addr : Nat) : Nat × Heap α :=
  h.alloc (h.store addr)

/-! ### `BACnetBoolean` (`src/types/boolean/boolean.type.ts`) -/

namespace BACnetBoolean

/-- A runtime value passed where a `boolean` is expected: either an actual
boolean or any non-boolean value (`_.isBoolean` fails on the latter). -/
inductive JsVal where
  | bool (b : Bool)
  | nonBool
deriving DecidableEq, Repr

/-- Source `BACnetBoolean.checkAndGetValue`: returns the value if it is a boolean,
throws a BACnet error otherwise. -/
def checkAndGetValue (value : JsVal) : Except String Bool :=
  match value with
  | .bool b => .ok b
  | .nonBool =>
    .error "BACnetBoolean - updateValue: Value must be of type \"boolean\"!"

/-- The mutable instance state: the last tag parsed (initially absent) and
the stored boolean. -/
structure State where
  tag : Option Tag
  data : Bool
deriving DecidableEq, Repr

/-- Source `BACnetBoolean.setValue`: `this.data = this.checkAndGetValue(newValue)`.
The check is evaluated first; only on success is the assignment performed,
so the error branch returns the state unchanged (the thrown error
propagates before any field write). -/
def setValueRun (st : State) (newValue : JsVal) : State × Option String :=
  match checkAndGetValue newValue with
  | .error e => (st, some e)
  | .ok b => ({ st with data := b }, none)

/-- Source `BACnetBoolean.readValue`: read a tag; on an application-class tag the
data is the truthiness of the tag's length/value subfield (no payload byte);
on a context-class tag one payload byte is read and tested for truthiness.
`data0` is the stored boolean before the call (the `switch` assigns nothing
on any other tag class). -/
def readValue (data0 : Bool) (s : ReaderState) : Option (Bool × Tag × ReaderState) :=
  match readTag s with
  | none => none
  | some (tag, s1) =>
    if tag.type = Enums.TagType.application then
      some (tag.value != 0, tag, s1)
    else if tag.type = Enums.TagType.context then
      match readUInt8 s1 with
      | none => none
      | some (b, s2) => some (b != 0, tag, s2)
    else
      some (data0, tag, s1)

/-- Source `BACnetBoolean.writeValue`:
`writer.writeTag(PropertyType.boolean, TagType.application, +this.data)` —
a single tag header whose lvt subfield carries the boolean; no payload. -/
def writeValue (data : Bool) : List WriteOp :=
  [WriteOp.tag Enums.PropertyType.boolean Enums.TagType.application data.toNat]

/-- Source `BACnetBoolean.writeParam`: a caller-supplied context tag of payload
length 1 followed by the 0/1 byte. -/
def writeParam (data : Bool) (tagNum tagType : Nat) : List WriteOp :=
  [WriteOp.tag tagNum tagType 1, WriteOp.uint8 data.toNat]

end BACnetBoolean

/-! ### `BACnetStatusFlags` (`src/types/boolean/boolean.type.ts`) -/

/-- The decoded status-flags payload (`Interfaces.Type.StatusFlags`). -/
structure StatusFlags where
  inAlarm : Bool
  fault : Bool
  overridden : Bool
  outOfService : Bool
deriving DecidableEq, Repr

/-- A partial status-flags object as a caller may pass it: each field
present or absent. -/
structure StatusFlagsPartial where
  inAlarm : Option Bool
  fault : Option Bool
  overridden : Option Bool
  outOfService : Option Bool
deriving DecidableEq, Repr

namespace BACnetStatusFlags

/-- Source `BACnetStatusFlags.checkAndGetValue`:
`_.assign({}, {fault:false, inAlarm:false, outOfService:false,
overridden:false}, value)` — every unspecified field (or the whole absent
object) is silently filled with `false`; no error is ever raised. -/
def checkAndGetValue (value : Option StatusFlagsPartial) : StatusFlags :=
  match value with
  | none => ⟨false, false, false, false⟩
  | some p =>
    ⟨p.inAlarm.getD false, p.fault.getD false,
      p.overridden.getD false, p.outOfService.getD false⟩

/-- Source `BACnetStatusFlags` constructor: `this.data = this.checkAndGetValue(defValue)`. -/
def mk (defValue : Option StatusFlagsPartial) : StatusFlags :=
  checkAndGetValue defValue

/-- Source `BACnetStatusFlags.readValue`: read a tag, an unused-bits byte (not
cross-checked) and one payload byte; bits 7/6/5/4 of the payload byte give
`inAlarm`/`fault`/`overridden`/`outOfService`.  No check of the tag's class
or number is performed. -/
def readValue (s : ReaderState) : Option (StatusFlags × Tag × ReaderState) :=
  match readTag s with
  | none => none
  | some (tag, s1) =>
    match readUInt8 s1 with
    | none => none
    | some (_unusedBits, s2) =>
      match readUInt8 s2 with
      | none => none
      | some (value, s3) =>
        some (⟨Typer.getBit value 7 != 0, Typer.getBit value 6 != 0,
          Typer.getBit value 5 != 0, Typer.getBit value 4 != 0⟩, tag, s3)

/-- The payload byte built by `BACnetStatusFlags.writeValue`: starting from
`0x00`, bits 7/6/5/4 are set from the four flags. -/
def payloadByte (data : StatusFlags) : Nat :=
  Typer.setBit (Typer.setBit (Typer.setBit (Typer.setBit 0 7 data.inAlarm)
    6 data.fault) 5 data.overridden) 4 data.outOfService

/-- Source `BACnetStatusFlags.writeValue`: `writer.writeTag(bitString, 0, 2)`, the
unused-bits byte `0x04`, then the flags payload byte. -/
def writeValue (data : StatusFlags) : List WriteOp :=
  [WriteOp.tag Enums.PropertyType.bitString 0 2,
    WriteOp.uint8 0x04,
    WriteOp.uint8 (payloadByte data)]

/-- Source `BACnetStatusFlags.getValue`: `_.cloneDeep(this.data)` on the heap
model — allocate and return a fresh copy of the stored object. -/
def getValue (h : Heap StatusFlags) (dataAddr : Nat) : Nat × Heap StatusFlags :=
  h.cloneDeep dataAddr

end BACnetStatusFlags

/-! ### `BACnetObjectId` (`src/types/boolean/boolean.type.ts`) -/

/-- The decoded object identifier (`Interfaces.Type.ObjectId`); the source
field `instance` is a Lean keyword and is named `inst` here. -/
structure ObjectId where
  type : Nat
  inst : Nat
deriving DecidableEq, Repr

/-- A partial object-identifier payload as a caller may pass it: either
field may be missing (`_.has` fails on a missing key). -/
structure ObjectIdPartial where
  type : Option Nat
  inst : Option Nat
deriving DecidableEq, Repr

namespace BACnetObjectId

/-- Source `BACnetObjectId.checkAndGetValue`: throws a BACnet error unless the
value has both a `type` and an `instance` field; the fields pass through
unchanged (no defaulting). -/
def checkAndGetValue (value : ObjectIdPartial) : Except String ObjectId :=
  match value.type, value.inst with
  | some t, some i => .ok ⟨t, i⟩
  | _, _ =>
    .error "BACnetObjectId - updateValue: Value must be of type \"object identifier\"!"

/-- Source `BACnetObjectId` constructor: an absent payload defaults to
`{type: 0, instance: 0}`; a present payload goes through
`checkAndGetValue` (`_.clone` is the identity on the value level). -/
def mk (defValue : Option ObjectIdPartial) : Except String ObjectId :=
  match defValue with
  | none => .ok ⟨0, 0⟩
  | some v => checkAndGetValue v

/-- The mutable instance state: the last tag parsed (initially absent) and
the stored object identifier. -/
structure State where
  tag : Option Tag
  data : ObjectId
deriving DecidableEq, Repr

/-- Source `BACnetObjectId.setValue`:
`this.data = this.checkAndGetValue(_.clone(newValue))`.  The check runs
first; only on success is the assignment performed, so the error branch
returns the state unchanged. -/
def setValueRun (st : State) (newValue : ObjectIdPartial) : State × Option String :=
  match checkAndGetValue newValue with
  | .error e => (st, some e)
  | .ok d => ({ st with data := d }, none)

/-- Source `BACnetObjectId.decodeObjectIdentifier`: type = bits 31–22, instance =
bits 21–0 of the 32-bit word. -/
def decodeObjectIdentifier (objId : Nat) : ObjectId :=
  ⟨Typer.getBitRange objId 22 10, Typer.getBitRange objId 0 22⟩

/-- Source `BACnetObjectId.encodeObjectIdentifier`: starting from `0x00`, write
the type into bits 31–22 and the instance into bits 21–0. -/
def encodeObjectIdentifier (objId : ObjectId) : Nat :=
  Typer.setBitRange (Typer.setBitRange 0 22 10 objId.type) 0 22 objId.inst

/-- Source `BACnetObjectId.writeParam`: a caller-supplied tag of payload length 4
followed by the encoded word via `writer.writeUInt32BE` (big-endian). -/
def writeParam (data : ObjectId) (tagNum tagType : Nat) : List WriteOp :=
  [WriteOp.tag tagNum tagType 4, WriteOp.uint32be (encodeObjectIdentifier data)]

/-- Source `BACnetObjectId.writeValue`: `writeParam` with the application-class
object-identifier tag. -/
def writeValue (data : ObjectId) : List WriteOp :=
  writeParam data Enums.PropertyType.objectIdentifier Enums.TagType.application

/-- Source `BACnetObjectId.isEqualObjectId`: structural comparison of the two
fields. -/
def isEqualObjectId (objId1 objId2 : ObjectId) : Bool :=
  objId1.type == objId2.type && objId1.inst == objId2.inst

/-- A comparand for `isEqual`: another `BACnetObjectId` instance (carrying
its stored data) or a raw `{type, instance}` object. -/
inductive Comparand where
  | inst (o : ObjectId)
  | raw (o : ObjectId)
deriving DecidableEq, Repr

/-- The object-identifier fields carried by a comparand. -/
def Comparand.objId : Comparand → ObjectId
  | .inst o => o
  | .raw o => o

/-- Source `BACnetObjectId.isEqual`: `false` for a nil comparand; otherwise the
structural comparison `isEqualObjectId` of the stored value against the
instance's value or the raw object. -/
def isEqual (selfData : ObjectId) (data : Option Comparand) : Bool :=
  match data with
  | none => false
  | some (.inst o) => isEqualObjectId selfData o
  | some (.raw o) => isEqualObjectId selfData o

/-- Source `BACnetObjectId.getValue`: `_.cloneDeep(this.data)` on the heap model —
allocate and return a fresh copy of the stored object. -/
def getValue (h : Heap ObjectId) (dataAddr : Nat) : Nat × Heap ObjectId :=
  h.cloneDeep dataAddr

end BACnetObjectId

/-! ### Complex-ACK PDU (`src/layers/apdus/complex-ack.pdu.ts`, modelled
from the spec — only the test file is under the provided sources) -/

/-- The decoded Complex-ACK envelope (§3, §4.6): sequenceNumber/windowSize
are present iff the segmented flag is set. -/
structure ComplexACK where
  pduType : Nat
  seg : Bool
  mor : Bool
  invokeId : Nat
  sequenceNumber : Option Nat
  windowSize : Option Nat
  serviceChoice : Nat
  serviceData : List Nat
deriving DecidableEq, Repr

/-- Modelled from the spec: `complexACKPDU.getFromBuffer` (§4.6) — read one
byte (high nibble = pduType, bit 3 = segmented, bit 2 = more-follows), one
invoke-ID byte, then sequenceNumber and windowSize only if segmented, then
the service choice; the remaining bytes are the service data. -/
def getFromBuffer (buf : List Nat) : Option ComplexACK :=
  match readUInt8 ⟨buf, 0⟩ with
  | none => none
  | some (b0, s1) =>
    let pduType := b0 >>> 4
    let seg := Typer.getBit b0 3 != 0
    let mor := Typer.getBit b0 2 != 0
    match readUInt8 s1 with
    | none => none
    | some (invokeId, s2) =>
      if seg then
        match readUInt8 s2 with
        | none => none
        | some (seqNumber, s3) =>
          match readUInt8 s3 with
          | none => none
          | some (window, s4) =>
            match readUInt8 s4 with
            | none => none
            | some (choice, s5) =>
              some ⟨pduType, seg, mor, invokeId, some seqNumber, some window,
                choice, s5.buffer.drop s5.pos⟩
      else
        match readUInt8 s2 with
        | none => none
        | some (choice, s3) =>
          some ⟨pduType, seg, mor, invokeId, none, none,
            choice, s3.buffer.drop s3.pos⟩

/-! ### Concrete heaps for instantiating the defensive-copy contract -/

/-- A one-object heap holding the object identifier `{type: 7, instance: 9}`
at address 0. -/
def demoObjHeap : Heap ObjectId := ⟨fun _ => ⟨7, 9⟩, 1⟩

/-- A one-object heap holding the all-false status flags at address 0. -/
def demoFlagsHeap : Heap StatusFlags := ⟨fun _ => ⟨false, false, false, false⟩, 1⟩

/-! ## Theorems -/

/-- Helper: a value shifted left past a smaller value can be joined to it by
bitwise or, and the result is their sum. -/
theorem shiftLeft_lor_eq_add (t i : Nat) (hi : i < 2 ^ 22) :
    t <<< 22 ||| i = t * 2 ^ 22 + i := by
  rw [Nat.shiftLeft_eq, mul_comm t]
  exact (Nat.mul_add_lt_is_or hi t).symm

/-- Helper: for in-range fields, `encodeObjectIdentifier` produces the
plain arithmetic packing `type * 2^22 + instance`. -/
theorem encodeObjectIdentifier_arith (t i : Nat) (ht : t ≤ 1023) (hi : i ≤ 4194303) :
    BACnetObjectId.encodeObjectIdentifier ⟨t, i⟩ = t * 2 ^ 22 + i := by
  simp only [BACnetObjectId.encodeObjectIdentifier, Typer.setBitRange, Typer.getBitRange,
    Nat.shiftRight_eq_div_pow]
  omega

/-- **C1**: for every `0 ≤ t ≤ 1023` and `0 ≤ i ≤ 4194303`, decoding the
word produced by `encodeObjectIdentifier {type: t, instance: i}` yields
exactly `{type: t, instance: i}`; the word is `(t <<< 22) ||| i` (type in
bits 31–22, instance in bits 21–0), fits 32 bits, and `writeValue` puts it
on the wire as a big-endian 32-bit word after the application tag. -/
theorem c1_object_id_round_trip (t i : Nat) (ht : t ≤ 1023) (hi : i ≤ 4194303) :
    BACnetObjectId.decodeObjectIdentifier (BACnetObjectId.encodeObjectIdentifier ⟨t, i⟩) = ⟨t, i⟩
    ∧ BACnetObjectId.encodeObjectIdentifier ⟨t, i⟩ = t <<< 22 ||| i
    ∧ BACnetObjectId.encodeObjectIdentifier ⟨t, i⟩ < 2 ^ 32
    ∧ BACnetObjectId.writeValue ⟨t, i⟩ =
        [WriteOp.tag Enums.PropertyType.objectIdentifier Enums.TagType.application 4,
          WriteOp.uint32be (t <<< 22 ||| i)] := by
  have he := encodeObjectIdentifier_arith t i ht hi
  have hl := shiftLeft_lor_eq_add t i (by omega)
  refine ⟨?_, by rw [he, hl], by rw [he]; omega, ?_⟩
  · rw [he]
    simp only [BACnetObjectId.decodeObjectIdentifier, Typer.getBitRange,
      Nat.shiftRight_eq_div_pow, ObjectId.mk.injEq]
    constructor <;> omega
  · simp only [BACnetObjectId.writeValue, BACnetObjectId.writeParam, he, hl]

/-- Witness for **C1** at `t = 1023`, `i = 4194303`. -/
theorem c1_object_id_round_trip_witness :
    1023 ≤ 1023 ∧ 4194303 ≤ 4194303
    ∧ BACnetObjectId.decodeObjectIdentifier
        (BACnetObjectId.encodeObjectIdentifier ⟨1023, 4194303⟩) = ⟨1023, 4194303⟩ :=
  ⟨by decide, by decide,
    (c1_object_id_round_trip 1023 4194303 (by decide) (by decide)).1⟩

/-- **C2**: `BACnetBoolean.writeValue` always emits a single
application-class tag whose lvt subfield carries the boolean as 0/1 and no
payload byte (true gives lvt = 1); and `readValue` on a context-class tag
reads exactly one payload byte, storing true iff that byte is nonzero. -/
theorem c2_boolean_dual_form :
    (∀ d : Bool, BACnetBoolean.writeValue d =
      [WriteOp.tag Enums.PropertyType.boolean Enums.TagType.application (if d then 1 else 0)])
    ∧ BACnetBoolean.writeValue true =
        [WriteOp.tag Enums.PropertyType.boolean Enums.TagType.application 1]
    ∧ ∀ (d0 : Bool) (s : ReaderState) (tag : Tag) (s1 : ReaderState) (b : Nat)
        (s2 : ReaderState), readTag s = some (tag, s1) →
        tag.type = Enums.TagType.context → readUInt8 s1 = some (b, s2) →
        BACnetBoolean.readValue d0 s = some (b != 0, tag, s2) := by
  refine ⟨fun d => by cases d <;> rfl, rfl, ?_⟩
  intro d0 s tag s1 b s2 hread htype hbyte
  simp [BACnetBoolean.readValue, hread, htype, hbyte,
    Enums.TagType.context, Enums.TagType.application]

/-- Witness for **C2** on the context-tagged buffer `[0x19, 0x05]`:
tag `{num: 1, class: context, length: 1}`, payload byte 5 decodes to true. -/
theorem c2_boolean_dual_form_witness :
    readTag ⟨[0x19, 0x05], 0⟩ = some (⟨1, 1, 1⟩, ⟨[0x19, 0x05], 1⟩)
    ∧ (⟨1, 1, 1⟩ : Tag).type = Enums.TagType.context
    ∧ readUInt8 ⟨[0x19, 0x05], 1⟩ = some (5, ⟨[0x19, 0x05], 2⟩)
    ∧ BACnetBoolean.readValue false ⟨[0x19, 0x05], 0⟩ =
        some (true, ⟨1, 1, 1⟩, ⟨[0x19, 0x05], 2⟩) :=
  ⟨by decide, by decide, by decide,
    c2_boolean_dual_form.2.2 false ⟨[0x19, 0x05], 0⟩ ⟨1, 1, 1⟩ ⟨[0x19, 0x05], 1⟩ 5
      ⟨[0x19, 0x05], 2⟩ (by decide) (by decide) (by decide)⟩

/-- **C3**: for every decoded tag of application class,
`BACnetBoolean.readValue` stores the truthiness of the tag's length/value
subfield and consumes no payload byte (the final cursor is exactly the one
left by the tag decode). -/
theorem c3_boolean_application_decode (d0 : Bool) (s : ReaderState) (tag : Tag)
    (s1 : ReaderState) (hread : readTag s = some (tag, s1))
    (htype : tag.type = Enums.TagType.application) :
    BACnetBoolean.readValue d0 s = some (tag.value != 0, tag, s1) := by
  simp [BACnetBoolean.readValue, hread, htype, Enums.TagType.application]

/-- Witness for **C3** on the buffer `[0x11]`: application tag
`{num: 1, class: application, lvt: 1}` decodes to true with no byte read. -/
theorem c3_boolean_application_decode_witness :
    readTag ⟨[0x11], 0⟩ = some (⟨1, 0, 1⟩, ⟨[0x11], 1⟩)
    ∧ (⟨1, 0, 1⟩ : Tag).type = Enums.TagType.application
    ∧ BACnetBoolean.readValue false ⟨[0x11], 0⟩ = some (true, ⟨1, 0, 1⟩, ⟨[0x11], 1⟩) :=
  ⟨by decide, by decide,
    c3_boolean_application_decode false ⟨[0x11], 0⟩ ⟨1, 0, 1⟩ ⟨[0x11], 1⟩
      (by decide) (by decide)⟩

/-- **C4**: for every flag state, `BACnetStatusFlags.writeValue` emits the
bit-string application tag of payload length 2, the unused-bits byte 4, and
one payload byte whose bits 7/6/5/4 are `inAlarm`/`fault`/`overridden`/
`outOfService` and whose bits 3–0 are zero; with only `inAlarm` set the
payload byte is `0x80`. -/
theorem c4_status_flags_bit_isolation : ∀ a f o v : Bool,
    BACnetStatusFlags.writeValue ⟨a, f, o, v⟩ =
      [WriteOp.tag Enums.PropertyType.bitString 0 2, WriteOp.uint8 4,
        WriteOp.uint8 (BACnetStatusFlags.payloadByte ⟨a, f, o, v⟩)]
    ∧ Typer.getBit (BACnetStatusFlags.payloadByte ⟨a, f, o, v⟩) 7 = a.toNat
    ∧ Typer.getBit (BACnetStatusFlags.payloadByte ⟨a, f, o, v⟩) 6 = f.toNat
    ∧ Typer.getBit (BACnetStatusFlags.payloadByte ⟨a, f, o, v⟩) 5 = o.toNat
    ∧ Typer.getBit (BACnetStatusFlags.payloadByte ⟨a, f, o, v⟩) 4 = v.toNat
    ∧ BACnetStatusFlags.payloadByte ⟨a, f, o, v⟩ % 16 = 0
    ∧ BACnetStatusFlags.payloadByte ⟨true, false, false, false⟩ = 0x80 := by
  decide

/-- **C5**: Complex-ACK decoding reads sequenceNumber/windowSize bytes iff
the segmented bit of the first byte is set; the buffer `0x30, 0x01, 0x0c, …`
decodes to pduType 3 (Complex-ACK), segmented false, invokeId 1,
serviceChoice `0x0c`, with the remaining bytes exposed unchanged as service
data, while a segmented first byte (`0x38`) consumes exactly two extra
bytes before the service choice. -/
theorem c5_complex_ack_conditional_fields :
    ∀ (rest : List Nat) (i sn w c : Nat),
      getFromBuffer (0x30 :: 0x01 :: 0x0c :: rest) =
        some ⟨3, false, false, 1, none, none, 0x0c, rest⟩
      ∧ getFromBuffer (0x38 :: i :: sn :: w :: c :: rest) =
          some ⟨3, true, false, i, some sn, some w, c, rest⟩ :=
  fun _ _ _ _ _ => ⟨rfl, rfl⟩

/-- **C6**: `BACnetStatusFlags` fills every unspecified field (or an absent
payload) with `false` and never errors, while `BACnetObjectId`'s
constructor-with-payload and `setValue` validation succeeds exactly when
both `type` and `instance` are present, passing the fields through with no
defaulting. -/
theorem c6_construction_asymmetry :
    BACnetStatusFlags.checkAndGetValue none = ⟨false, false, false, false⟩
    ∧ (∀ p : StatusFlagsPartial, BACnetStatusFlags.checkAndGetValue (some p) =
        ⟨p.inAlarm.getD false, p.fault.getD false,
          p.overridden.getD false, p.outOfService.getD false⟩)
    ∧ (∀ q : ObjectIdPartial,
        (BACnetObjectId.checkAndGetValue q).isOk ↔ q.type.isSome ∧ q.inst.isSome)
    ∧ (∀ q : ObjectIdPartial,
        (BACnetObjectId.mk (some q)).isOk ↔ q.type.isSome ∧ q.inst.isSome)
    ∧ (∀ t i : Nat, BACnetObjectId.checkAndGetValue ⟨some t, some i⟩ = .ok ⟨t, i⟩) := by
  refine ⟨rfl, fun p => rfl, fun q => ?_, fun q => ?_, fun t i => rfl⟩ <;>
    rcases q with ⟨tOpt, iOpt⟩ <;> cases tOpt <;> cases iOpt <;>
      simp [BACnetObjectId.checkAndGetValue, BACnetObjectId.mk, Except.isOk, Except.toBool]

/-- **C7 counterexample**: `BACnetStatusFlags.readValue` given a
context-class tag (header `0x2a`: number 2, class context, length 2) does
not fail — it decodes the unused-bits byte and the payload byte normally. -/
theorem c7_unsupported_tag_counterexample :
    BACnetStatusFlags.readValue ⟨[0x2a, 0x04, 0x80], 0⟩ =
      some (⟨true, false, false, false⟩, ⟨2, 1, 2⟩, ⟨[0x2a, 0x04, 0x80], 3⟩)
    ∧ (⟨2, 1, 2⟩ : Tag).type = Enums.TagType.context := by
  decide

/-- **C7 amended**: `BACnetStatusFlags.readValue` performs no check of the
decoded tag's class or number: whenever the tag decode and the two
following byte reads succeed — in particular for a context-class tag — it
returns the flags extracted from bits 7/6/5/4 of the payload byte, raising
no error. -/
theorem c7_status_flags_no_tag_check (s : ReaderState) (tag : Tag)
    (s1 : ReaderState) (u : Nat) (s2 : ReaderState) (v : Nat) (s3 : ReaderState)
    (hread : readTag s = some (tag, s1)) (hu : readUInt8 s1 = some (u, s2))
    (hv : readUInt8 s2 = some (v, s3)) :
    BACnetStatusFlags.readValue s =
      some (⟨Typer.getBit v 7 != 0, Typer.getBit v 6 != 0,
        Typer.getBit v 5 != 0, Typer.getBit v 4 != 0⟩, tag, s3) := by
  simp [BACnetStatusFlags.readValue, hread, hu, hv]

/-- Witness for **C7 amended** on the context-tagged buffer
`[0x2a, 0x04, 0x80]`. -/
theorem c7_status_flags_no_tag_check_witness :
    readTag ⟨[0x2a, 0x04, 0x80], 0⟩ = some (⟨2, 1, 2⟩, ⟨[0x2a, 0x04, 0x80], 1⟩)
    ∧ readUInt8 ⟨[0x2a, 0x04, 0x80], 1⟩ = some (4, ⟨[0x2a, 0x04, 0x80], 2⟩)
    ∧ readUInt8 ⟨[0x2a, 0x04, 0x80], 2⟩ = some (0x80, ⟨[0x2a, 0x04, 0x80], 3⟩)
    ∧ BACnetStatusFlags.readValue ⟨[0x2a, 0x04, 0x80], 0⟩ =
        some (⟨true, false, false, false⟩, ⟨2, 1, 2⟩, ⟨[0x2a, 0x04, 0x80], 3⟩) :=
  ⟨by decide, by decide, by decide,
    c7_status_flags_no_tag_check ⟨[0x2a, 0x04, 0x80], 0⟩ ⟨2, 1, 2⟩
      ⟨[0x2a, 0x04, 0x80], 1⟩ 4 ⟨[0x2a, 0x04, 0x80], 2⟩ 0x80 ⟨[0x2a, 0x04, 0x80], 3⟩
      (by decide) (by decide) (by decide)⟩

/-- **C8**: for both compound types, `getValue` returns a reference to a
fresh object (distinct from the stored one) whose fields structurally equal
the stored data; the call leaves the stored data unchanged, and any
mutation of the returned object leaves the stored data — and hence every
subsequent `writeValue` result — unchanged. -/
theorem c8_get_value_defensive_copy (h : Heap ObjectId) (a : Nat)
    (f : ObjectId → ObjectId) (h2 : Heap StatusFlags) (a2 : Nat)
    (g : StatusFlags → StatusFlags) (ha : a < h.next) (ha2 : a2 < h2.next) :
    ((BACnetObjectId.getValue h a).1 ≠ a
      ∧ (BACnetObjectId.getValue h a).2.store (BACnetObjectId.getValue h a).1 = h.store a
      ∧ (BACnetObjectId.getValue h a).2.store a = h.store a
      ∧ ((BACnetObjectId.getValue h a).2.writeField
          (BACnetObjectId.getValue h a).1 f).store a = h.store a
      ∧ BACnetObjectId.writeValue (((BACnetObjectId.getValue h a).2.writeField
          (BACnetObjectId.getValue h a).1 f).store a) = BACnetObjectId.writeValue (h.store a))
    ∧ ((BACnetStatusFlags.getValue h2 a2).1 ≠ a2
      ∧ (BACnetStatusFlags.getValue h2 a2).2.store (BACnetStatusFlags.getValue h2 a2).1 =
          h2.store a2
      ∧ (BACnetStatusFlags.getValue h2 a2).2.store a2 = h2.store a2
      ∧ ((BACnetStatusFlags.getValue h2 a2).2.writeField
          (BACnetStatusFlags.getValue h2 a2).1 g).store a2 = h2.store a2
      ∧ BACnetStatusFlags.writeValue (((BACnetStatusFlags.getValue h2 a2).2.writeField
          (BACnetStatusFlags.getValue h2 a2).1 g).store a2) =
          BACnetStatusFlags.writeValue (h2.store a2)) := by
  have hne : a ≠ h.next := Nat.ne_of_lt ha
  have hne2 : a2 ≠ h2.next := Nat.ne_of_lt ha2
  constructor <;>
    refine ⟨?_, ?_, ?_, ?_, ?_⟩ <;>
      simp [BACnetObjectId.getValue, BACnetStatusFlags.getValue, Heap.cloneDeep,
        Heap.alloc, Heap.writeField, hne, hne2, Ne.symm hne, Ne.symm hne2]

/-- Witness for **C8** on one-object heaps. -/
theorem c8_get_value_defensive_copy_witness :
    0 < demoObjHeap.next ∧ 0 < demoFlagsHeap.next
    ∧ ((BACnetObjectId.getValue demoObjHeap 0).2.writeField
        (BACnetObjectId.getValue demoObjHeap 0).1
        (fun o => ⟨o.type + 1, o.inst⟩)).store 0 = demoObjHeap.store 0
    ∧ ((BACnetStatusFlags.getValue demoFlagsHeap 0).2.writeField
        (BACnetStatusFlags.getValue demoFlagsHeap 0).1
        (fun fl => ⟨!fl.inAlarm, fl.fault, fl.overridden, fl.outOfService⟩)).store 0 =
        demoFlagsHeap.store 0 :=
  ⟨by decide, by decide,
    (c8_get_value_defensive_copy demoObjHeap 0 (fun o => ⟨o.type + 1, o.inst⟩)
      demoFlagsHeap 0 (fun fl => ⟨!fl.inAlarm, fl.fault, fl.overridden, fl.outOfService⟩)
      (by decide) (by decide)).1.2.2.2.1,
    (c8_get_value_defensive_copy demoObjHeap 0 (fun o => ⟨o.type + 1, o.inst⟩)
      demoFlagsHeap 0 (fun fl => ⟨!fl.inAlarm, fl.fault, fl.overridden, fl.outOfService⟩)
      (by decide) (by decide)).2.2.2.2.1⟩

/-- **C9**: `BACnetObjectId.isEqual` is false (and total, hence never
throwing) on a nil comparand, and on an instance or raw-object comparand it
is true exactly when both the `type` and the `instance` field equal those
of the stored value. -/
theorem c9_is_equal_structural :
    ∀ (self : ObjectId) (c : BACnetObjectId.Comparand),
      BACnetObjectId.isEqual self none = false
      ∧ (BACnetObjectId.isEqual self (some c) = true ↔
          self.type = c.objId.type ∧ self.inst = c.objId.inst) := by
  intro self c
  refine ⟨rfl, ?_⟩
  cases c <;>
    simp [BACnetObjectId.isEqual, BACnetObjectId.isEqualObjectId,
      BACnetObjectId.Comparand.objId]

/-- **C10**: a `setValue` call failing validation (a non-boolean for
`BACnetBoolean`; a payload missing `type` or `instance` for
`BACnetObjectId`) raises the validation error before any assignment, so the
stored data and tag are exactly what they were before the call. -/
theorem c10_failed_setter_no_effect :
    (∀ st : BACnetBoolean.State,
      BACnetBoolean.setValueRun st BACnetBoolean.JsVal.nonBool =
        (st, some "BACnetBoolean - updateValue: Value must be of type \"boolean\"!"))
    ∧ ∀ (st : BACnetObjectId.State) (q : ObjectIdPartial),
        q.type = none ∨ q.inst = none →
        BACnetObjectId.setValueRun st q =
          (st, some "BACnetObjectId - updateValue: Value must be of type \"object identifier\"!") := by
  refine ⟨fun st => rfl, ?_⟩
  intro st q hq
  rcases q with ⟨tOpt, iOpt⟩
  cases tOpt <;> cases iOpt <;>
    simp_all [BACnetObjectId.setValueRun, BACnetObjectId.checkAndGetValue]

/-- Witness for **C10** with a payload missing the `type` field. -/
theorem c10_failed_setter_no_effect_witness :
    BACnetBoolean.setValueRun ⟨none, false⟩ BACnetBoolean.JsVal.nonBool =
      (⟨none, false⟩, some "BACnetBoolean - updateValue: Value must be of type \"boolean\"!")
    ∧ ((⟨none, some 3⟩ : ObjectIdPartial).type = none
        ∨ (⟨none, some 3⟩ : ObjectIdPartial).inst = none)
    ∧ BACnetObjectId.setValueRun ⟨none, ⟨1, 2⟩⟩ ⟨none, some 3⟩ =
        (⟨none, ⟨1, 2⟩⟩,
          some "BACnetObjectId - updateValue: Value must be of type \"object identifier\"!") :=
  ⟨c10_failed_setter_no_effect.1 ⟨none, false⟩, Or.inl rfl,
    c10_failed_setter_no_effect.2 ⟨none, ⟨1, 2⟩⟩ ⟨none, some 3⟩ (Or.inl rfl)⟩

end TidBacnet
